import Mathlib

/-!
Shallow embedding of `src/scripts/auth-login.py`: a command-line script that
selects an authentication URL from its first positional argument, issues one
HTTP POST with a fixed JSON payload via an `httpx.Client` context manager,
raises on error statuses, and pretty-prints the parsed JSON response.
-/

namespace AuthLogin

/-- JSON values, as produced by `r.json()` and sent via the `json=` keyword. -/
inductive Json where
  | null : Json
  | bool (b : Bool) : Json
  | num (n : Int) : Json
  | str (s : String) : Json
  | arr (items : List Json) : Json
  | obj (fields : List (String × Json)) : Json

/-- The Python exceptions this script can raise uncaught.
`indexError` comes from `args[1]` on a too-short list, `unboundLocalError`
from reading a local variable (`url`) no `case` arm assigned, and
`httpStatusError` from `httpx.Response.raise_for_status`. -/
inductive PyError where
  | indexError : PyError
  | unboundLocalError (name : String) : PyError
  | httpStatusError (status : Nat) : PyError

/-- The Python `LookupError` base class covers `IndexError` and `KeyError`;
`UnboundLocalError` is a `NameError`, and `HTTPStatusError` an `HTTPError`. -/
def PyError.isLookupError : PyError → Bool
  | .indexError => true
  | .unboundLocalError _ => false
  | .httpStatusError _ => false

/-- Observable resource/network events of one run: entering the
`with httpx.Client()` block, issuing `client.post`, and leaving the block. -/
inductive Event where
  | acquireClient : Event
  | post (url : String) (body : Json) : Event
  | releaseClient : Event

/-- An HTTP response: status code plus (already JSON-decoded) body. -/
structure Response where
  status : Nat
  body : Json

/-- The hardcoded payload literal of `main`. -/
def payload : Json :=
  Json.obj [("email", Json.str "joeblackwaslike@me.com"),
            ("password", Json.str "Prosperis123!")]

def registerUrl : String := "http://localhost:3001/api/auth/register"

def loginUrl : String := "http://localhost:3001/api/auth/login"

/-- The `match args[1]:` statement. A Python `match` with no matching `case`
falls through without assigning, so the local `url` stays unbound: `none`. -/
def matchUrl (cmd : String) : Option String :=
  match cmd with
  | "register" => some registerUrl
  | "login" => some loginUrl
  | _ => none

/-- The `if len(args) == 0: args.append("login")` defaulting step. -/
def applyDefault (args : List String) : List String :=
  if args.length = 0 then args ++ ["login"] else args

/-- Modelled from the httpx library (not part of this repository):
`Response.is_success` holds exactly for status codes 200–299. -/
def is_success (status : Nat) : Bool :=
  decide (200 ≤ status) && decide (status ≤ 299)

/-- Modelled from the httpx library (not part of this repository):
`Response.raise_for_status` raises `HTTPStatusError` for every response
whose status is not a 2xx success code (informational 1xx, redirect 3xx,
client-error 4xx and server-error 5xx alike), and otherwise returns. -/
def raise_for_status (r : Response) : Except PyError Response :=
  if is_success r.status then Except.ok r
  else Except.error (PyError.httpStatusError r.status)

/-- The body of the `with` block: evaluating `client.post(url, json=payload)`
first reads `url` (raising `UnboundLocalError` when no `case` arm bound it),
otherwise posts the fixed payload and runs `r.raise_for_status()`; on success
`r.json()` yields the decoded body. Components: events issued by the body,
and the returned value or exception. -/
def requestBody (url : Option String) (resp : Response) :
    List Event × Except PyError Json :=
  match url with
  | none => ([], Except.error (PyError.unboundLocalError "url"))
  | some u =>
      ([Event.post u payload],
       match raise_for_status resp with
       | Except.ok r => Except.ok r.body
       | Except.error e => Except.error e)

/-- The `with httpx.Client() as client:` context manager: the client is
acquired on entry and released on exit whether or not the body raised; an
exception from the body then propagates unchanged. -/
def withClient (body : List Event × Except PyError Json) :
    List Event × Except PyError Json :=
  (Event.acquireClient :: body.1 ++ [Event.releaseClient], body.2)

/-- Function `main(args=sys.argv)`: builds the payload, appends a default
only when the argument list is empty, reads `args[1]` (raising `IndexError`
when out of bounds, before any client is created), selects the URL by
`match`, and runs the request inside the client context. `resp` is the
response the server would return to the single possible POST. The first
component is the event trace, the second the returned value or the
uncaught exception. -/
def main (argv : List String) (resp : Response) :
    List Event × Except PyError Json :=
  let args := applyDefault argv
  match args.get? 1 with
  | none => ([], Except.error PyError.indexError)
  | some cmd => withClient (requestBody (matchUrl cmd) resp)

/-- The `if __name__ == "__main__": pprint(main())` entry point: on a normal
return the value is pretty-printed and the process exits 0; an uncaught
exception prints a traceback instead and the process exits 1. Components:
event trace, pretty-printed value (if any), exit status. -/
def program (argv : List String) (resp : Response) :
    List Event × Option Json × Nat :=
  match main argv resp with
  | (events, Except.ok v) => (events, some v, 0)
  | (events, Except.error _) => (events, none, 1)

/-- Number of `post` events in a trace (network calls issued). -/
def countPosts (events : List Event) : Nat :=
  events.countP fun e =>
    match e with
    | Event.post _ _ => true
    | _ => false

/-- The response body used by several spec scenarios: a token object. -/
def tokenAbc : Json := Json.obj [("token", Json.str "abc")]

theorem applyDefault_of_ne_zero (argv : List String) (h : argv.length ≠ 0) :
    applyDefault argv = argv := by
  unfold applyDefault
  rw [if_neg h]

theorem main_of_get (argv : List String) (resp : Response) (cmd : String)
    (h : argv.get? 1 = some cmd) :
    main argv resp = withClient (requestBody (matchUrl cmd) resp) := by
  have hne : argv.length ≠ 0 := by
    intro h0
    rw [List.length_eq_zero] at h0
    subst h0
    simp at h
  simp only [main]
  rw [applyDefault_of_ne_zero argv hne, h]

theorem matchUrl_eq_none (cmd : String) (h1 : cmd ≠ "register")
    (h2 : cmd ≠ "login") : matchUrl cmd = none := by
  unfold matchUrl
  split
  · exact absurd rfl h1
  · exact absurd rfl h2
  · rfl

/-- Claim C1, the code bug: when the argument vector holds only the program
name, the length-zero test of the defaulting branch is false, so no default
is appended; `args[1]` then raises `IndexError` before any client is created
or request issued, instead of targeting the login URL as specified. -/
theorem C1_no_subcommand_crashes_instead_of_defaulting :
    main ["auth-login.py"] ⟨200, tokenAbc⟩ =
      ([], Except.error PyError.indexError) := rfl

/-- Claim C2: whenever element 1 of the argument vector is "register" the
single POST targets the register URL, and whenever it is "login" the single
POST targets the login URL, in both cases with the fixed payload and a
scoped client, for every server response. -/
theorem C2_subcommand_selects_url (argv : List String) (resp : Response) :
    (argv.get? 1 = some "register" →
      (main argv resp).1 =
        [Event.acquireClient, Event.post registerUrl payload,
         Event.releaseClient]) ∧
    (argv.get? 1 = some "login" →
      (main argv resp).1 =
        [Event.acquireClient, Event.post loginUrl payload,
         Event.releaseClient]) := by
  constructor
  · intro h
    rw [main_of_get argv resp "register" h]
    rfl
  · intro h
    rw [main_of_get argv resp "login" h]
    rfl

/-- Closed instance of C2 at concrete argument vectors. -/
theorem C2_subcommand_selects_url_witness :
    (main ["auth-login.py", "register"] ⟨200, tokenAbc⟩).1 =
      [Event.acquireClient, Event.post registerUrl payload,
       Event.releaseClient] ∧
    (main ["auth-login.py", "login"] ⟨200, tokenAbc⟩).1 =
      [Event.acquireClient, Event.post loginUrl payload,
       Event.releaseClient] :=
  ⟨(C2_subcommand_selects_url ["auth-login.py", "register"] ⟨200, tokenAbc⟩).1
     rfl,
   (C2_subcommand_selects_url ["auth-login.py", "login"] ⟨200, tokenAbc⟩).2
     rfl⟩

/-- Claim C3: every POST event any run ever issues carries exactly the fixed
payload, whatever the argument vector and server response. -/
theorem C3_request_body_is_fixed_payload (argv : List String) (resp : Response)
    (u : String) (b : Json) (h : Event.post u b ∈ (main argv resp).1) :
    b = payload := by
  simp only [main] at h
  cases hg : (applyDefault argv).get? 1 with
  | none =>
      rw [hg] at h
      simp at h
  | some cmd =>
      rw [hg] at h
      have h2 : Event.post u b ∈ (withClient (requestBody (matchUrl cmd) resp)).1 := h
      cases hu : matchUrl cmd with
      | none =>
          rw [hu] at h2
          simp [withClient, requestBody] at h2
      | some u2 =>
          rw [hu] at h2
          simp [withClient, requestBody] at h2
          exact h2.2

/-- Closed instance of C3 at a concrete run. -/
theorem C3_request_body_is_fixed_payload_witness :
    Event.post loginUrl payload ∈
      (main ["auth-login.py", "login"] ⟨200, tokenAbc⟩).1 ∧
    payload = payload :=
  ⟨by simp [main, applyDefault, matchUrl, withClient, requestBody],
   C3_request_body_is_fixed_payload ["auth-login.py", "login"] ⟨200, tokenAbc⟩
     loginUrl payload
     (by simp [main, applyDefault, matchUrl, withClient, requestBody])⟩

theorem requestBody_snd (u : String) (resp : Response) :
    (requestBody (some u) resp).2 =
      if is_success resp.status then Except.ok resp.body
      else Except.error (PyError.httpStatusError resp.status) := by
  unfold requestBody raise_for_status
  by_cases hs : is_success resp.status
  · simp [hs]
  · simp [hs]

/-- Counterexample to claim C4 as stated: a 301 redirect status is neither a
client error nor a server error, yet the request executor raises an HTTP
status error on it, so the raise happens on more than just 4xx/5xx. -/
theorem C4_counterexample_redirect_301 :
    (main ["auth-login.py", "login"] ⟨301, Json.null⟩).2 =
      Except.error (PyError.httpStatusError 301) ∧
    ¬(400 ≤ 301 ∧ 301 ≤ 599) := ⟨rfl, by decide⟩

/-- Claim C4 amended: for every recognized sub-command, the executor raises
an HTTP status error exactly when the response status is not a 2xx success
code, and otherwise returns the parsed JSON body as the result of `main`. -/
theorem C4_raise_iff_not_success (argv : List String) (resp : Response)
    (cmd : String) (h : argv.get? 1 = some cmd)
    (hc : cmd = "register" ∨ cmd = "login") :
    (main argv resp).2 =
      if is_success resp.status then Except.ok resp.body
      else Except.error (PyError.httpStatusError resp.status) := by
  rw [main_of_get argv resp cmd h]
  rcases hc with rfl | rfl
  · exact requestBody_snd registerUrl resp
  · exact requestBody_snd loginUrl resp

/-- Closed instance of C4 amended at status 401. -/
theorem C4_raise_iff_not_success_witness :
    (main ["auth-login.py", "login"] ⟨401, Json.null⟩).2 =
      if is_success 401 then Except.ok Json.null
      else Except.error (PyError.httpStatusError 401) :=
  C4_raise_iff_not_success ["auth-login.py", "login"] ⟨401, Json.null⟩ "login"
    rfl (Or.inr rfl)

/-- Counterexample to claim C5 as stated: on the unrecognized sub-command
"reset" the process does exit non-zero, but the crash is an unbound-local
error on the variable `url` (a name error in the Python hierarchy), not a
lookup error: the `match` statement itself raises nothing when no `case`
matches. -/
theorem C5_counterexample_not_lookup_error :
    (program ["auth-login.py", "reset"] ⟨200, Json.null⟩).2.2 = 1 ∧
    (main ["auth-login.py", "reset"] ⟨200, Json.null⟩).2 =
      Except.error (PyError.unboundLocalError "url") ∧
    PyError.isLookupError (PyError.unboundLocalError "url") = false :=
  ⟨rfl, rfl, rfl⟩

/-- Claim C5 amended: for every sub-command other than "register" and
"login", the process exits non-zero, crashing with an unbound-local (name)
error on `url` from the unhandled selection, and no POST is issued. -/
theorem C5_unrecognized_crashes_unbound_local (argv : List String)
    (resp : Response) (cmd : String) (h : argv.get? 1 = some cmd)
    (h1 : cmd ≠ "register") (h2 : cmd ≠ "login") :
    (program argv resp).2.2 = 1 ∧
    (main argv resp).2 = Except.error (PyError.unboundLocalError "url") ∧
    countPosts (main argv resp).1 = 0 := by
  have hm : main argv resp = withClient (requestBody none resp) := by
    rw [main_of_get argv resp cmd h, matchUrl_eq_none cmd h1 h2]
  refine ⟨?_, ?_, ?_⟩
  · unfold program
    rw [hm]
    rfl
  · rw [hm]
    rfl
  · rw [hm]
    rfl

/-- Closed instance of C5 amended at the sub-command "reset". -/
theorem C5_unrecognized_crashes_unbound_local_witness :
    (program ["auth-login.py", "reset"] ⟨200, tokenAbc⟩).2.2 = 1 ∧
    (main ["auth-login.py", "reset"] ⟨200, tokenAbc⟩).2 =
      Except.error (PyError.unboundLocalError "url") ∧
    countPosts (main ["auth-login.py", "reset"] ⟨200, tokenAbc⟩).1 = 0 :=
  C5_unrecognized_crashes_unbound_local ["auth-login.py", "reset"]
    ⟨200, tokenAbc⟩ "reset" rfl (by decide) (by decide)

/-- Claim C6: with a recognized sub-command and a 200 response carrying the
token object, the program pretty-prints exactly that structure and exits
with status 0. -/
theorem C6_success_prints_and_exits_zero (argv : List String) (cmd : String)
    (h : argv.get? 1 = some cmd) (hc : cmd = "register" ∨ cmd = "login") :
    (program argv ⟨200, tokenAbc⟩).2 = (some tokenAbc, 0) := by
  unfold program
  rw [main_of_get argv ⟨200, tokenAbc⟩ cmd h]
  rcases hc with rfl | rfl
  · rfl
  · rfl

/-- Closed instance of C6 at the login sub-command. -/
theorem C6_success_prints_and_exits_zero_witness :
    (program ["auth-login.py", "login"] ⟨200, tokenAbc⟩).2 =
      (some tokenAbc, 0) :=
  C6_success_prints_and_exits_zero ["auth-login.py", "login"] "login" rfl
    (Or.inr rfl)

/-- Counterexample to claim C7 as stated: with the unrecognized argument
"reset" the process exits after performing zero network calls, not exactly
one, so the single POST is not performed regardless of the argument. -/
theorem C7_counterexample_zero_posts :
    countPosts (main ["auth-login.py", "reset"] ⟨200, Json.null⟩).1 = 0 := rfl

/-- Claim C7 amended: every run performs at most one network call — exactly
one POST when element 1 of the argument vector is "register" or "login",
and zero calls otherwise (index error or unbound `url` aborts the run
before any request). -/
theorem C7_at_most_one_post (argv : List String) (resp : Response) :
    countPosts (main argv resp).1 =
      if argv.get? 1 = some "register" ∨ argv.get? 1 = some "login" then 1
      else 0 := by
  match argv with
  | [] => rfl
  | [a] => rfl
  | a :: b :: t =>
    have hm : main (a :: b :: t) resp =
        withClient (requestBody (matchUrl b) resp) :=
      main_of_get (a :: b :: t) resp b rfl
    rw [hm]
    by_cases hb1 : b = "register"
    · subst hb1
      rfl
    · by_cases hb2 : b = "login"
      · subst hb2
        rfl
      · rw [matchUrl_eq_none b hb1 hb2, if_neg (by simp [hb1, hb2])]
        rfl

/-- Claim C8: on every run that reaches the HTTP call (reading `args[1]`
succeeded, so the `with` block is entered), the trace is a client
acquisition, then only POST events (none when `url` is unbound), then a
client release: the client is acquired before any request and released
after, also when the request or the status check fails. -/
theorem C8_client_scoped (argv : List String) (resp : Response) (cmd : String)
    (h : (applyDefault argv).get? 1 = some cmd) :
    ∃ ps : List Event,
      (main argv resp).1 = Event.acquireClient :: ps ++ [Event.releaseClient] ∧
      ∀ e ∈ ps, ∃ u b, e = Event.post u b := by
  have hm : main argv resp = withClient (requestBody (matchUrl cmd) resp) := by
    simp only [main]
    rw [h]
  refine ⟨(requestBody (matchUrl cmd) resp).1, ?_, ?_⟩
  · rw [hm]
    rfl
  · cases hu : matchUrl cmd with
    | none =>
        intro e he
        simp [requestBody] at he
    | some u =>
        intro e he
        simp [requestBody] at he
        exact ⟨u, payload, he⟩

/-- Closed instance of C8 at a run whose status check fails with 401: the
client is still released after the POST. -/
theorem C8_client_scoped_witness :
    ∃ ps : List Event,
      (main ["auth-login.py", "login"] ⟨401, Json.null⟩).1 =
        Event.acquireClient :: ps ++ [Event.releaseClient] ∧
      ∀ e ∈ ps, ∃ u b, e = Event.post u b :=
  C8_client_scoped ["auth-login.py", "login"] ⟨401, Json.null⟩ "login" rfl

/-- Claim C9: with an argument vector of length exactly 1 (program name
only), `main` raises `IndexError` — which is a Python lookup error — with an
empty event trace, hence before any network request; and for every vector
holding at least one element, the length-zero defaulting branch leaves the
vector unchanged, so it never fires for a real process invocation. -/
theorem C9_one_element_vector_index_error (argv : List String)
    (resp : Response) :
    (argv.length = 1 →
      main argv resp = ([], Except.error PyError.indexError) ∧
      PyError.isLookupError PyError.indexError = true) ∧
    (1 ≤ argv.length → applyDefault argv = argv) := by
  constructor
  · intro h1
    obtain ⟨a, rfl⟩ := List.length_eq_one.mp h1
    exact ⟨rfl, rfl⟩
  · intro h1
    exact applyDefault_of_ne_zero argv (by omega)

/-- Closed instance of C9 at the one-element vector. -/
theorem C9_one_element_vector_index_error_witness :
    (main ["auth-login.py"] ⟨200, Json.null⟩ =
      ([], Except.error PyError.indexError) ∧
      PyError.isLookupError PyError.indexError = true) ∧
    applyDefault ["auth-login.py"] = ["auth-login.py"] :=
  ⟨(C9_one_element_vector_index_error ["auth-login.py"] ⟨200, Json.null⟩).1
     rfl,
   (C9_one_element_vector_index_error ["auth-login.py"] ⟨200, Json.null⟩).2
     (by decide)⟩

theorem main_congr (a1 a2 : List String) (resp : Response)
    (h : (applyDefault a1).get? 1 = (applyDefault a2).get? 1) :
    main a1 resp = main a2 resp := by
  simp only [main]
  rw [h]

/-- Claim C10: two argument vectors of length at least 2 that agree at
index 1 produce identical runs — the same event trace (hence the same URL
and the same payload in the single POST) and the same returned value — so
element 0 and elements at indices 2 and beyond have no influence. -/
theorem C10_only_index_one_matters (a1 a2 : List String) (resp : Response)
    (h1 : 2 ≤ a1.length) (h2 : 2 ≤ a2.length)
    (h : a1.get? 1 = a2.get? 1) :
    main a1 resp = main a2 resp := by
  apply main_congr
  rw [applyDefault_of_ne_zero a1 (by omega),
      applyDefault_of_ne_zero a2 (by omega)]
  exact h

/-- Closed instance of C10 at two vectors differing everywhere but index 1. -/
theorem C10_only_index_one_matters_witness :
    main ["a", "login", "extra"] ⟨200, tokenAbc⟩ =
      main ["b", "login"] ⟨200, tokenAbc⟩ :=
  C10_only_index_one_matters ["a", "login", "extra"] ["b", "login"]
    ⟨200, tokenAbc⟩ (by decide) (by decide) rfl

end AuthLogin
